import Mathlib

/-!
Shallow embedding of the payment transaction processing engine of the
`circular-payment-service` repository, centred on
`src/services/payment-gateway/src/services/PaymentProcessor.ts` and the
`Transaction` model (`src/models/Transaction`, inlined after the separator in
`src/utils/CreditCardValidator.ts`).

Modelling conventions:
* JavaScript `number` parameters and fields are modelled as `ℚ` carrying the
  numeric value; where the binary-floating-point nature of `number` matters
  (the stored `Transaction.amount`), the predicate `float64Representable`
  captures that a finite IEEE-754 binary64 value is a dyadic rational.
* An `axios.post` interaction either resolves with a response body or rejects
  with a JavaScript error (`AxiosOutcome`).  `processPayment` makes several
  calls, so it receives a stream `outcomes : ℕ → AxiosOutcome _`; call number
  `n` (0-based) observes `outcomes n`.  `processRefund`/`capturePayment` make
  exactly one call and receive a single outcome.
* Each outbound HTTP request is recorded as an `OutboundCall` (path, JSON
  body, axios `timeout` option); the functions return the list of calls they
  issued, in order, alongside their result.
* `uuidv4()` results are passed in as parameters (`transactionId`, `newId`).
* Timestamps (`createdAt`/`updatedAt`), logging and the large-refund warning
  branch (log only, no behavioural effect) are elided.
* JavaScript truthiness in `a || b` and `a ? x : y` is modelled explicitly:
  for optional strings `none` and `some ""` are falsy (`jsOrStr`), for
  optional numbers `none` and `some 0` are falsy (`jsTruthyNum`).
-/

/-- Transaction status enum from `src/models/Transaction` (`TransactionStatus`). -/
inductive TransactionStatus
  | pending
  | completed
  | failed
  | canceled
deriving DecidableEq

/-- Transaction type union from `src/models/Transaction` (`TransactionType`). -/
inductive TransactionType
  | payment
  | refund
  | capture
  | authorization
deriving DecidableEq

/-- Caller-supplied opaque metadata (`Record<string, unknown>`), modelled as
an association list of strings. -/
def Metadata : Type := List (String × String)

instance : DecidableEq Metadata := by
  unfold Metadata
  infer_instance

/-- The `error` object stored on a failed `Transaction` (`{message, code}`). -/
structure TxErrorInfo where
  message : String
  code : String
deriving DecidableEq

/-- The `Transaction` record from `src/models/Transaction`.  The source type
declares `amount: number | Decimal`; `PaymentProcessor` always stores a
`number` (see `float64Representable`), whose numeric value is modelled as `ℚ`.
`createdAt`/`updatedAt` timestamps are elided. -/
structure Transaction where
  id : String
  originalTransactionId : Option String := none
  providerTransactionId : Option String := none
  amount : ℚ
  currency : String
  status : TransactionStatus
  type : TransactionType
  metadata : Option Metadata := none
  error : Option TxErrorInfo := none
deriving DecidableEq

/-- A JavaScript `Error` as thrown by axios on network failure / rejection:
`message` is always present, `code` may be `undefined`. -/
structure JsError where
  message : String
  code : Option String := none
deriving DecidableEq

/-- The `PaymentError` class of `PaymentProcessor.ts` (message + stable code). -/
structure PaymentError where
  message : String
  code : String
deriving DecidableEq

/-- What a processor operation can throw: either the typed `PaymentError`, or
a raw (untyped) JavaScript error re-thrown as-is. -/
inductive Thrown
  | paymentErr (e : PaymentError)
  | rawErr (e : JsError)
deriving DecidableEq

/-- The `error` object inside a provider `/payments` response body; both
fields may be absent (`undefined`). -/
structure ProviderErrorData where
  message : Option String := none
  code : Option String := none
deriving DecidableEq

/-- Provider response body for `POST /payments`: `status` (`"succeeded"` or
`"failed"`), `id` (provider transaction id, present on success), `error`
(present on failure; absent fields modelled as `none`). -/
structure PaymentResponseData where
  status : String
  id : Option String := none
  error : ProviderErrorData := {}
deriving DecidableEq

/-- Provider response body for `POST /refunds` and `POST /captures`: the
source reads `response.data.id`, `response.data.amount`,
`response.data.currency` (and never inspects `status`). -/
structure ProviderOpResponseData where
  status : String
  id : Option String := none
  amount : ℚ
  currency : String
deriving DecidableEq

/-- Result of one `await axios.post(...)`: the promise either resolves with a
response whose body is `α`, or rejects with a JavaScript error. -/
inductive AxiosOutcome (α : Type)
  | resolve (data : α)
  | reject (e : JsError)
deriving DecidableEq

/-- JSON body of a `POST /payments` request, exactly the fields built at both
call sites in `processPayment` (lines 87-92 and 130-135). -/
structure PaymentRequest where
  amount : ℚ
  currency : String
  payment_method : String
  idempotency_key : String
  metadata : Metadata
deriving DecidableEq

/-- JSON body of a `POST /refunds` request (lines 190-192): only
`transaction_id` and an optional `amount` — `undefined` (omitted) when the
caller's amount is absent or falsy. -/
structure RefundRequest where
  transaction_id : String
  amount : Option ℚ := none
deriving DecidableEq

/-- JSON body of a `POST /captures` request (lines 245-247): only
`authorization_id` and an optional `amount`. -/
structure CaptureRequest where
  authorization_id : String
  amount : Option ℚ := none
deriving DecidableEq

/-- The body of one outbound provider request. -/
inductive RequestBody
  | payment (r : PaymentRequest)
  | refund (r : RefundRequest)
  | capture (r : CaptureRequest)
deriving DecidableEq

/-- The JSON keys actually serialized for a request body (axios/JSON omit
`undefined` fields, so an absent optional `amount` produces no key). -/
def RequestBody.keys : RequestBody → List String
  | .payment _ => ["amount", "currency", "payment_method", "idempotency_key", "metadata"]
  | .refund r => "transaction_id" :: (match r.amount with | some _ => ["amount"] | none => [])
  | .capture r => "authorization_id" :: (match r.amount with | some _ => ["amount"] | none => [])

/-- One outbound HTTP request to the provider: URL path, JSON body, and the
axios `timeout` option (in milliseconds) — `none` when the call site passes no
`timeout` in its config. -/
structure OutboundCall where
  path : String
  body : RequestBody
  timeoutMs : Option ℕ
deriving DecidableEq

/-- JavaScript `s || d` for an optional string `s`: `undefined` and the empty
string are falsy. -/
def jsOrStr (s : Option String) (d : String) : String :=
  match s with
  | none => d
  | some v => if v = "" then d else v

/-- JavaScript truthiness of an optional number: `undefined` and `0` are
falsy (`NaN` is not representable in `ℚ` and is out of model). -/
def jsTruthyNum (a : Option ℚ) : Bool :=
  match a with
  | none => false
  | some q => q ≠ 0

/-- JavaScript `a || d` for an optional number `a`. -/
def jsOrNum (a : Option ℚ) (d : ℚ) : ℚ :=
  match a with
  | none => d
  | some q => if q = 0 then d else q

/-- Constant `MAX_RETRY_ATTEMPTS` (PaymentProcessor.ts line 19). -/
def MAX_RETRY_ATTEMPTS : ℕ := 3

/-- The `PaymentProcessor` constructor (lines 41-47):
`this.retryAttempts = options.retryAttempts || MAX_RETRY_ATTEMPTS` — note the
JavaScript `||`, under which an explicit `0` also falls back to the default. -/
def mkRetryAttempts (optionsRetryAttempts : Option ℕ) : ℕ :=
  match optionsRetryAttempts with
  | none => MAX_RETRY_ATTEMPTS
  | some n => if n = 0 then MAX_RETRY_ATTEMPTS else n

/-- The error the `catch (error)` block of `processPayment` observes: a
`message` (always set: `Error.message`) and an optional `code` (set on a
`PaymentError`, usually `undefined` on a network error). -/
structure CaughtError where
  message : String
  code : Option String := none
deriving DecidableEq

/-- The inner `processWithRetry` closure of `processPayment` (lines 126-152).
It re-issues the identical `POST /payments` request (same body `call.body`,
and — like the outer call — no `timeout` in the config); on rejection it
recurses while `retryCount < this.retryAttempts`, then re-throws the last
error raw.  The source counts `retryCount` upward from 0 to `retryAttempts`;
here the remaining budget `retriesLeft = retryAttempts - retryCount` counts
downward (the guard `retryCount < retryAttempts` is `retriesLeft > 0`), so the
recursion is structural.  Returns the settled outcome of the final call (or
the last rejection once the budget is exhausted) together with the list of
calls issued; `callIdx` indexes into the outcome stream. -/
def processWithRetry (outcomes : ℕ → AxiosOutcome PaymentResponseData)
    (call : OutboundCall) :
    (retriesLeft : ℕ) → (callIdx : ℕ) →
      AxiosOutcome PaymentResponseData × List OutboundCall
  | retriesLeft, callIdx =>
    match outcomes callIdx with
    | .resolve d => (.resolve d, [call])
    | .reject e =>
      match retriesLeft with
      | 0 => (.reject e, [call])
      | r + 1 =>
        let rest := processWithRetry outcomes call r (callIdx + 1)
        (rest.1, call :: rest.2)

/-- The tail of `processPayment`'s `catch (error)` block (lines 124-169):
it runs `processWithRetry` (first retry call consumes `outcomes 1`, with the
full `retryAttempts` budget since `retryCount` starts at 0); if that throws,
the raw error propagates out of `processPayment` untyped; if it resolves —
whatever the response says — the response is discarded and a `PaymentError`
built from the ORIGINAL caught error is thrown
(`error.code || 'provider_error'`). -/
def paymentCatch (outcomes : ℕ → AxiosOutcome PaymentResponseData)
    (retryAttempts : ℕ) (call : OutboundCall) (caught : CaughtError) :
    Except Thrown Transaction × List OutboundCall :=
  let r := processWithRetry outcomes call retryAttempts 1
  match r.1 with
  | .reject e => (.error (.rawErr e), r.2)
  | .resolve _ =>
    (.error (.paymentErr ⟨caught.message, jsOrStr caught.code "provider_error"⟩), r.2)

/-- `PaymentProcessor.processPayment` (lines 56-170).  A fresh
`transactionId` (`uuidv4()`) is passed in; `amount` is the numeric value of
the `number` argument (`new Decimal(amount)` preserves it); the first
`POST /payments` (no `timeout` configured) consumes `outcomes 0`.  On a
resolved response with `status === 'succeeded'` the pending record is
finalized `completed` with `providerTransactionId = response.data.id` and
returned.  On any other resolved response a `PaymentError` built from
`response.data.error` (JS `||` fallbacks) is thrown; on rejection the network
error is thrown; either way control lands in the `catch` block
(`paymentCatch`).  Returns the result together with every outbound call
issued, in order. -/
def processPayment (retryAttempts : ℕ) (transactionId : String) (amount : ℚ)
    (currency : String) (paymentMethod : String) (metadata : Metadata)
    (outcomes : ℕ → AxiosOutcome PaymentResponseData) :
    Except Thrown Transaction × List OutboundCall :=
  let req : PaymentRequest :=
    { amount := amount, currency := currency, payment_method := paymentMethod,
      idempotency_key := transactionId, metadata := metadata }
  let call : OutboundCall := { path := "/payments", body := .payment req, timeoutMs := none }
  match outcomes 0 with
  | .resolve d =>
    if d.status = "succeeded" then
      (.ok { id := transactionId, amount := amount, currency := currency,
             status := .completed, type := .payment,
             providerTransactionId := d.id, metadata := some metadata }, [call])
    else
      let thrown : CaughtError :=
        { message := jsOrStr d.error.message "Payment processing failed",
          code := some (jsOrStr d.error.code "unknown_error") }
      let r := paymentCatch outcomes retryAttempts call thrown
      (r.1, call :: r.2)
  | .reject e =>
    let r := paymentCatch outcomes retryAttempts call { message := e.message, code := e.code }
    (r.1, call :: r.2)

/-- `PaymentProcessor.processRefund` (lines 177-229).  `newId` stands for the
`uuidv4()` generated for the refund record AFTER the provider call; the single
`POST /refunds` request carries only `transaction_id` and (if the caller's
`amount` is truthy) `amount`, with a 30000 ms timeout.  On resolution — the
response `status` is never inspected — a `completed` refund record is built
with `amount = amount || response.data.amount`; on rejection a `PaymentError`
with code `error.code || 'refund_error'` is thrown.  There is no refundable-
remainder check and no `ValidationError` path anywhere in the function. -/
def processRefund (transactionId : String) (amount : Option ℚ) (newId : String)
    (outcome : AxiosOutcome ProviderOpResponseData) :
    Except Thrown Transaction × List OutboundCall :=
  let req : RefundRequest :=
    { transaction_id := transactionId,
      amount := if jsTruthyNum amount then amount else none }
  let call : OutboundCall := { path := "/refunds", body := .refund req, timeoutMs := some 30000 }
  match outcome with
  | .resolve d =>
    (.ok { id := newId, originalTransactionId := some transactionId,
           amount := jsOrNum amount d.amount, currency := d.currency,
           status := .completed, type := .refund,
           providerTransactionId := d.id }, [call])
  | .reject e =>
    (.error (.paymentErr ⟨"Failed to process refund: " ++ e.message,
                          jsOrStr e.code "refund_error"⟩), [call])

/-- `PaymentProcessor.capturePayment` (lines 236-280): same shape as
`processRefund` with `POST /captures`, `authorization_id`, type `capture`,
and fallback code `'capture_error'`. -/
def capturePayment (authorizationId : String) (amount : Option ℚ) (newId : String)
    (outcome : AxiosOutcome ProviderOpResponseData) :
    Except Thrown Transaction × List OutboundCall :=
  let req : CaptureRequest :=
    { authorization_id := authorizationId,
      amount := if jsTruthyNum amount then amount else none }
  let call : OutboundCall := { path := "/captures", body := .capture req, timeoutMs := some 30000 }
  match outcome with
  | .resolve d =>
    (.ok { id := newId, originalTransactionId := some authorizationId,
           amount := jsOrNum amount d.amount, currency := d.currency,
           status := .completed, type := .capture,
           providerTransactionId := d.id }, [call])
  | .reject e =>
    (.error (.paymentErr ⟨"Failed to capture payment: " ++ e.message,
                          jsOrStr e.code "capture_error"⟩), [call])

/-- A rational is representable as a finite IEEE-754 binary64 value only if it
is a dyadic rational (an integer divided by a power of two); this predicate is
the (necessary) shape constraint on every value of the TypeScript `number`
type, in particular on `Transaction.amount` as stored by `processPayment`
line 76 (`amount: decimalAmount.toNumber()`). -/
def float64Representable (q : ℚ) : Prop :=
  ∃ (m : ℤ) (k : ℕ), q = (m : ℚ) / 2 ^ k

/-- Claim C1 (counterexample evaluation): with the default max attempts, a
single transient network failure followed by an accepted retry submission does
NOT yield a completed record — `processPayment` discards the accepted retry
response, and throws a `PaymentError` built from the original network error,
after issuing 2 submissions (both with idempotency key `"txn_a"`). -/
theorem C1_retry_accept_still_throws :
    processPayment (mkRetryAttempts none) "txn_a" 100 "USD" "card" []
        (fun n => if n = 0 then .reject { message := "socket hang up", code := some "ECONNRESET" }
                  else .resolve { status := "succeeded", id := some "prov_1" }) =
      (.error (.paymentErr { message := "socket hang up", code := "ECONNRESET" }),
       [{ path := "/payments",
          body := .payment { amount := 100, currency := "USD", payment_method := "card",
                             idempotency_key := "txn_a", metadata := [] },
          timeoutMs := none },
        { path := "/payments",
          body := .payment { amount := 100, currency := "USD", payment_method := "card",
                             idempotency_key := "txn_a", metadata := [] },
          timeoutMs := none }]) := rfl

/-- Claim C2 (counterexample evaluation): a `Declined` provider response
(`status: "failed"`, code `card_declined`) triggers a SECOND provider
submission: the `PaymentError` thrown on the declined branch is caught by
`processPayment`'s own catch block, which runs `processWithRetry`; 2 outbound
calls are issued although the claim requires exactly one. -/
theorem C2_declined_triggers_second_submission :
    (processPayment (mkRetryAttempts none) "txn_b" 100 "USD" "card" []
        (fun _ => .resolve { status := "failed",
                             error := { message := some "Card declined",
                                        code := some "card_declined" } })).1 =
      .error (.paymentErr { message := "Card declined", code := "card_declined" }) ∧
    (processPayment (mkRetryAttempts none) "txn_b" 100 "USD" "card" []
        (fun _ => .resolve { status := "failed",
                             error := { message := some "Card declined",
                                        code := some "card_declined" } })).2.length = 2 :=
  ⟨rfl, rfl⟩

/-- Claim C3 (counterexample evaluation): when every submission fails
transiently, `processPayment` with the default configuration makes 5 provider
calls (1 initial + 4 inside `processWithRetry`, whose `retryCount` runs
0,1,2,3 against the bound 3), not the claimed 3, and terminates by re-throwing
the raw network error. -/
theorem C3_all_transient_makes_five_calls :
    (processPayment (mkRetryAttempts none) "txn_c" 100 "USD" "card" []
        (fun _ => .reject { message := "Network error" })).2.length = 5 ∧
    (processPayment (mkRetryAttempts none) "txn_c" 100 "USD" "card" []
        (fun _ => .reject { message := "Network error" })).1 =
      .error (.rawErr { message := "Network error" }) :=
  ⟨rfl, rfl⟩

/-- Claim C4 (counterexample evaluation): a refund of 30.00 against an
original transaction of 20.00 is NOT rejected: `processRefund` has no
refundable-remainder check and no `ValidationError` path — the request is
submitted to the provider (1 outbound call) and a completed record is
returned. -/
theorem C4_over_refund_submitted_not_rejected :
    processRefund "txn_1" (some 30) "r_1"
        (.resolve { status := "succeeded", id := some "re_1", amount := 30, currency := "USD" }) =
      (.ok { id := "r_1", originalTransactionId := some "txn_1", amount := 30,
             currency := "USD", status := .completed, type := .refund,
             providerTransactionId := some "re_1" },
       [{ path := "/refunds",
          body := .refund { transaction_id := "txn_1", amount := some 30 },
          timeoutMs := some 30000 }]) := rfl

/-- Claim C5 (counterexample evaluation): the requests issued by
`processRefund` and `capturePayment` carry no `idempotency_key` field at all —
their serialized JSON keys are exactly `transaction_id`/`authorization_id`
plus `amount` (and the internal record id is generated only after the
provider call, so it cannot be in the body). -/
theorem C5_refund_capture_lack_idempotency_key :
    ((processRefund "txn_9" (some 25) "r_9"
        (.resolve { status := "succeeded", id := some "re_9", amount := 25,
                    currency := "USD" })).2.map fun c => c.body.keys) =
      [["transaction_id", "amount"]] ∧
    "idempotency_key" ∉
      ((processRefund "txn_9" (some 25) "r_9"
        (.resolve { status := "succeeded", id := some "re_9", amount := 25,
                    currency := "USD" })).2.map fun c => c.body.keys).flatten ∧
    ((capturePayment "auth_9" (some 25) "cap_9"
        (.resolve { status := "succeeded", id := some "ca_9", amount := 25,
                    currency := "USD" })).2.map fun c => c.body.keys) =
      [["authorization_id", "amount"]] ∧
    "idempotency_key" ∉
      ((capturePayment "auth_9" (some 25) "cap_9"
        (.resolve { status := "succeeded", id := some "ca_9", amount := 25,
                    currency := "USD" })).2.map fun c => c.body.keys).flatten := by
  refine ⟨rfl, ?_, rfl, ?_⟩ <;> decide

/-- Claim C6 (counterexample evaluation): every `POST /payments` call site
passes no `timeout` in its axios config — both on a first-attempt success
(one call, `timeoutMs = none`) and on the retry path (two calls, both
`timeoutMs = none`). -/
theorem C6_payment_calls_have_no_timeout :
    ((processPayment (mkRetryAttempts none) "txn_d" 100 "USD" "card" []
        (fun _ => .resolve { status := "succeeded", id := some "p6" })).2.map
          fun c => c.timeoutMs) = [none] ∧
    ((processPayment (mkRetryAttempts none) "txn_d" 100 "USD" "card" []
        (fun n => if n = 0 then .reject { message := "timeout exceeded" }
                  else .resolve { status := "succeeded", id := some "p6" })).2.map
          fun c => c.timeoutMs) = [none, none] :=
  ⟨rfl, rfl⟩

/-- Claim C7 (counterexample): `Transaction.amount` is stored through
`decimalAmount.toNumber()` into a TypeScript `number` (IEEE-754 binary64),
and every finite binary64 value is a dyadic rational; the decimal input
19.99 = 1999/100 is not dyadic, so storing it in the `number` field cannot be
exact — the claimed lossless round-trip through the record is impossible. -/
theorem C7_nineteen99_not_float64_representable :
    ¬ float64Representable ((1999 : ℚ) / 100) := by
  rintro ⟨m, k, h⟩
  have h2 : (1999 : ℚ) * 2 ^ k = 100 * m := by
    have hk : ((2 : ℚ) ^ k) ≠ 0 := by positivity
    field_simp at h
    linarith
  have h3 : (1999 : ℤ) * 2 ^ k = 100 * m := by exact_mod_cast h2
  have h5 : (5 : ℤ) ∣ 1999 * 2 ^ k := ⟨20 * m, by linarith⟩
  have hp : Prime (5 : ℤ) := by norm_num
  rcases hp.dvd_mul.mp h5 with hd | hd
  · norm_num at hd
  · have := hp.dvd_of_dvd_pow hd
    norm_num at this

/-- Claim C8 (counterexample evaluation): when retries are exhausted,
`processWithRetry` re-throws the last axios error raw and the surrounding
catch block does not wrap it — the caller receives the untyped JavaScript
error, never a `PaymentError` (contradicting the unit test for network
errors). -/
theorem C8_raw_network_error_escapes_untyped :
    (processPayment (mkRetryAttempts none) "txn_e" 250 "EUR" "card" []
        (fun _ => .reject { message := "connect ECONNREFUSED",
                            code := some "ECONNREFUSED" })).1 =
      .error (.rawErr { message := "connect ECONNREFUSED", code := some "ECONNREFUSED" }) ∧
    ∀ e : PaymentError,
      (processPayment (mkRetryAttempts none) "txn_e" 250 "EUR" "card" []
          (fun _ => .reject { message := "connect ECONNREFUSED",
                              code := some "ECONNREFUSED" })).1 ≠
        .error (.paymentErr e) := by
  refine ⟨rfl, ?_⟩
  intro e h
  rw [show (processPayment (mkRetryAttempts none) "txn_e" 250 "EUR" "card" []
        (fun _ => .reject { message := "connect ECONNREFUSED",
                            code := some "ECONNREFUSED" })).1 =
      .error (.rawErr { message := "connect ECONNREFUSED", code := some "ECONNREFUSED" })
    from rfl] at h
  simp at h

/-- Claim C9: when the first provider submission resolves with
`status = "succeeded"` and a non-empty id, `processPayment` returns a record
with status `completed`, `providerTransactionId` equal to the provider's id,
and amount, currency and metadata equal to the caller's inputs (and exactly
that one submission was made, carrying the transaction id as idempotency
key). -/
theorem C9_first_attempt_accepted_completes (retryAttempts : ℕ)
    (transactionId : String) (amount : ℚ) (currency paymentMethod : String)
    (metadata : Metadata) (outcomes : ℕ → AxiosOutcome PaymentResponseData)
    (d : PaymentResponseData) (pid : String)
    (h0 : outcomes 0 = .resolve d) (hs : d.status = "succeeded")
    (hid : d.id = some pid) (hpid : pid ≠ "") :
    processPayment retryAttempts transactionId amount currency paymentMethod
        metadata outcomes =
      (.ok { id := transactionId, amount := amount, currency := currency,
             status := .completed, type := .payment,
             providerTransactionId := some pid, metadata := some metadata },
       [{ path := "/payments",
          body := .payment { amount := amount, currency := currency,
                             payment_method := paymentMethod,
                             idempotency_key := transactionId,
                             metadata := metadata },
          timeoutMs := none }]) ∧
    some pid ≠ some "" := by
  refine ⟨?_, by simpa using hpid⟩
  simp [processPayment, h0, hs, hid]

/-- Claim C9 witness: concrete first-attempt acceptance. -/
theorem C9_witness :
    processPayment 3 "txn_1" 100 "USD" "card" []
        (fun _ => .resolve { status := "succeeded", id := some "prov_1" }) =
      (.ok { id := "txn_1", amount := 100, currency := "USD",
             status := .completed, type := .payment,
             providerTransactionId := some "prov_1", metadata := some [] },
       [{ path := "/payments",
          body := .payment { amount := 100, currency := "USD",
                             payment_method := "card",
                             idempotency_key := "txn_1", metadata := [] },
          timeoutMs := none }]) ∧
    some "prov_1" ≠ some "" :=
  C9_first_attempt_accepted_completes 3 "txn_1" 100 "USD" "card" []
    (fun _ => .resolve { status := "succeeded", id := some "prov_1" })
    { status := "succeeded", id := some "prov_1" } "prov_1"
    rfl rfl rfl (by decide)

/-- Claim C10: for `processRefund` and `capturePayment`, an amount of 0 is
JavaScript-falsy, so it behaves identically to omitting the amount: the whole
result (record and outbound calls) coincides with the `none` call, the
serialized request carries no `amount` key, and on a resolved response the
record's amount is the provider's response amount, not the caller's 0. -/
theorem C10_zero_amount_behaves_like_omitted (transactionId authorizationId newId : String)
    (o : AxiosOutcome ProviderOpResponseData) (d : ProviderOpResponseData) :
    processRefund transactionId (some 0) newId o =
      processRefund transactionId none newId o ∧
    capturePayment authorizationId (some 0) newId o =
      capturePayment authorizationId none newId o ∧
    ((processRefund transactionId (some 0) newId (.resolve d)).2.map
        fun c => c.body.keys) = [["transaction_id"]] ∧
    (processRefund transactionId (some 0) newId (.resolve d)).1 =
      .ok { id := newId, originalTransactionId := some transactionId,
            amount := d.amount, currency := d.currency, status := .completed,
            type := .refund, providerTransactionId := d.id } ∧
    ((capturePayment authorizationId (some 0) newId (.resolve d)).2.map
        fun c => c.body.keys) = [["authorization_id"]] ∧
    (capturePayment authorizationId (some 0) newId (.resolve d)).1 =
      .ok { id := newId, originalTransactionId := some authorizationId,
            amount := d.amount, currency := d.currency, status := .completed,
            type := .capture, providerTransactionId := d.id } := by
  refine ⟨?_, ?_, ?_, ?_, ?_, ?_⟩ <;>
    simp [processRefund, capturePayment, jsTruthyNum, jsOrNum, RequestBody.keys]
